import Mathlib

/-!
Verification development for the provider-service backend
(`backend/services/minimax_service.py`, `backend/services/apify_service.py`,
`backend/services/brightdata_service.py`).

The Python services are shallowly embedded as pure Lean functions:
  * external I/O (HTTP requests to the MCP worker, process spawning,
    OS process-table queries) is represented by explicit outcome oracles
    passed as arguments;
  * the mutable per-service state (the video status cache, the worker
    PID fields, the PID file) is threaded explicitly;
  * Python exceptions are modelled with `Except` results.

Each definition mirrors one function of the source, keeping its branch
structure, retry counters and string constants.
-/

namespace Mcpai

/-- Mirror of the pydantic model `VideoStatus` in `minimax_service.py`. -/
structure VideoStatus where
  video_id : String
  status : String
  progress : Option ℚ := none
  video_url : Option String := none
  thumbnail_url : Option String := none
  duration : Option Int := none
  error : Option String := none
deriving DecidableEq, Repr

/-- The in-memory `video_status_cache` dictionary, keyed by video id. -/
abbrev Cache := List (String × VideoStatus)

/-- Dictionary lookup (`video_id in cache` / `cache[video_id]`). -/
def cacheFind : Cache → String → Option VideoStatus
  | [], _ => none
  | (k, v) :: rest, key => if k = key then some v else cacheFind rest key

/-- Dictionary assignment `cache[video_id] = v` (replace or append). -/
def cacheInsert : Cache → String → VideoStatus → Cache
  | [], k, v => [(k, v)]
  | (k1, v1) :: rest, k, v =>
    if k1 = k then (k, v) :: rest else (k1, v1) :: cacheInsert rest k v

/-- `status in ["completed", "failed"]`. -/
def terminalStatus (s : String) : Bool :=
  s = "completed" || s = "failed"

/-- JSON body of a successful `/status/{video_id}` response, with the
fields `get_video_status` reads via `data.get`. -/
structure StatusData where
  status : Option String := none
  progress : Option ℚ := none
  video_url : Option String := none
  thumbnail_url : Option String := none
  duration : Option Int := none
  error : Option String := none
deriving DecidableEq, Repr

/-- Outcome of one HTTP attempt against the MCP `/status` endpoint:
a 200 response with parsed JSON, a non-200 response with its status
code, a transport failure (`httpx.RequestError`), or some other
exception raised inside the `try` body. -/
inductive QueryOutcome where
  | ok (d : StatusData)
  | httpError (code : Nat)
  | reqError (msg : String)
  | exn (msg : String)
deriving DecidableEq, Repr

deriving instance DecidableEq for Except

/-- Result of `get_video_status`: the returned `VideoStatus` (or the
raised exception message), the cache after the call, and how many
remote `/status` queries were issued. -/
structure GVSResult where
  result : Except String VideoStatus
  cache : Cache
  queries : Nat
deriving DecidableEq, Repr

/-- The `VideoStatus` built from a parsed 200 response
(`data.get("status", "processing")`, `data.get("progress", 0.0)`, ...). -/
def mkStatusFromData (vid : String) (d : StatusData) : VideoStatus :=
  { video_id := vid
    status := d.status.getD "processing"
    progress := some (d.progress.getD 0)
    video_url := d.video_url
    thumbnail_url := d.thumbnail_url
    duration := d.duration
    error := d.error }

/-- The retry loop of `get_video_status` (`for attempt in range(self.max_retries)`
with `max_retries = 3`): `i` is the current attempt index, the second
`Nat` the remaining fuel (3 - i).  Retries happen on a 5xx response or
a request error while `attempt < max_retries - 1`; the fuel-0 branch is
unreachable because every attempt-2 branch returns. -/
def statusQueryLoop (att : Nat → QueryOutcome) (vid : String) :
    Nat → Nat → Cache → GVSResult
  | _, 0, cache => ⟨.error "loop exhausted", cache, 0⟩
  | i, fuel + 1, cache =>
    match att i with
    | .ok d =>
      let st := mkStatusFromData vid d
      ⟨.ok st, cacheInsert cache vid st, 1⟩
    | .httpError c =>
      if i < 2 && 500 ≤ c then
        let r := statusQueryLoop att vid (i + 1) fuel cache
        ⟨r.result, r.cache, r.queries + 1⟩
      else
        let emsg := "MCP returned error: " ++ toString c
        let cache1 :=
          match cacheFind cache vid with
          | some v => cacheInsert cache vid { v with status := "failed", error := some emsg }
          | none => cache
        ⟨.ok { video_id := vid, status := "failed", error := some emsg }, cache1, 1⟩
    | .reqError m =>
      if i < 2 then
        let r := statusQueryLoop att vid (i + 1) fuel cache
        ⟨r.result, r.cache, r.queries + 1⟩
      else
        let emsg := "Error communicating with MCP: " ++ m
        let cache1 :=
          match cacheFind cache vid with
          | some v =>
            if v.status ≠ "completed" then cacheInsert cache vid { v with error := some emsg }
            else cache
          | none => cache
        ⟨.ok ((cacheFind cache1 vid).getD
            { video_id := vid, status := "failed", error := some emsg }), cache1, 1⟩
    | .exn m =>
      let cache1 :=
        match cacheFind cache vid with
        | some v =>
          if v.status ≠ "completed" then cacheInsert cache vid { v with error := some m }
          else cache
        | none => cache
      ⟨.ok ((cacheFind cache1 vid).getD
          { video_id := vid, status := "failed", error := some m }), cache1, 1⟩

/-- The body of `get_video_status` past the cache check: raise
`RuntimeError("Failed to start MiniMax MCP")` when `ensure_mcp_running`
fails, else run the retry loop. -/
def getVideoStatusBody (ensureOk : Bool) (att : Nat → QueryOutcome)
    (cache : Cache) (vid : String) : GVSResult :=
  if ensureOk then statusQueryLoop att vid 0 3 cache
  else ⟨.error "Failed to start MiniMax MCP", cache, 0⟩

/-- `MiniMaxService.get_video_status`: return the cached value when its
status is already terminal, otherwise query the worker with retries. -/
def getVideoStatus (ensureOk : Bool) (att : Nat → QueryOutcome)
    (cache : Cache) (vid : String) : GVSResult :=
  match cacheFind cache vid with
  | some cs =>
    if terminalStatus cs.status then ⟨.ok cs, cache, 0⟩
    else getVideoStatusBody ensureOk att cache vid
  | none => getVideoStatusBody ensureOk att cache vid

/-- Result of the polling loop of `_monitor_video_generation`: the cache
after the loop, the number of `get_video_status` checks performed, the
exception that escaped the loop (if any), and the list of statuses the
loop observed. -/
structure MonLoopRes where
  cache : Cache
  checks : Nat
  exn : Option String
  observed : List String
deriving DecidableEq, Repr

/-- The environment of one polling iteration: whether
`ensure_mcp_running` succeeds inside the `get_video_status` call, and
the outcomes of that call's HTTP attempts. -/
abbrev MonOracle := Nat → Bool × (Nat → QueryOutcome)

/-- The `for i in range(max_checks)` loop of `_monitor_video_generation`
(`max_checks = 60`): each iteration calls `get_video_status`; a raised
exception escapes the loop; a terminal status breaks out of it; a
non-terminal status updates the cached entry's progress (a missing
entry would raise `KeyError`) and continues. -/
def monitorLoop (orc : MonOracle) (vid : String) :
    Nat → Nat → Cache → MonLoopRes
  | _, 0, cache => ⟨cache, 0, none, []⟩
  | i, fuel + 1, cache =>
    let eo := orc i
    let r := getVideoStatus eo.1 eo.2 cache vid
    match r.result with
    | .error e => ⟨r.cache, 1, some e, []⟩
    | .ok st =>
      if terminalStatus st.status then ⟨r.cache, 1, none, [st.status]⟩
      else
        match st.progress with
        | some p =>
          match cacheFind r.cache vid with
          | some v =>
            let c2 := cacheInsert r.cache vid { v with progress := some p }
            let rest := monitorLoop orc vid (i + 1) fuel c2
            ⟨rest.cache, rest.checks + 1, rest.exn, st.status :: rest.observed⟩
          | none => ⟨r.cache, 1, some "KeyError", []⟩
        | none =>
          let rest := monitorLoop orc vid (i + 1) fuel r.cache
          ⟨rest.cache, rest.checks + 1, rest.exn, st.status :: rest.observed⟩

/-- Error message written by the timeout branch of
`_monitor_video_generation`. -/
def timeoutMsg : String := "Timed out waiting for video generation"

/-- `cache[video_id].status = "failed"; cache[video_id].error = err`
when the entry exists. -/
def markFailed (cache : Cache) (vid err : String) : Cache :=
  match cacheFind cache vid with
  | some v => cacheInsert cache vid { v with status := "failed", error := some err }
  | none => cache

/-- `MiniMaxService._monitor_video_generation`: run the polling loop;
on a normal exit mark the job failed with a timeout error if it is
still `"processing"`; an exception is absorbed by marking the job
failed with that error. -/
def monitorVideoGeneration (orc : MonOracle) (vid : String)
    (cache : Cache) : MonLoopRes :=
  let r := monitorLoop orc vid 0 60 cache
  match r.exn with
  | some e => { r with cache := markFailed r.cache vid e }
  | none =>
    match cacheFind r.cache vid with
    | some v =>
      if v.status = "processing" then
        let v2 : VideoStatus := { v with status := "failed", error := some timeoutMsg }
        { r with cache := cacheInsert r.cache vid v2 }
      else r
    | none => r

/-- Parsed 200 response of the `/generate` endpoint, with the fields
`generate_video` reads (`data.get("video_id", ...)`,
`data.get("created_at")`), or a failure outcome of the attempt. -/
inductive GenOutcome where
  | ok (videoId : Option String) (createdAt : Option String)
  | httpError (code : Nat)
  | reqError (msg : String)
  | exn (msg : String)
deriving DecidableEq, Repr

/-- Mirror of the pydantic model `VideoGenerationResponse`. -/
structure VideoGenerationResponse where
  video_id : String
  video_url : Option String := none
  thumbnail_url : Option String := none
  duration : Option Int := none
  status : String := "processing"
  message : Option String := none
  created_at : Option String := none
deriving DecidableEq, Repr

/-- Result of `generate_video`: the returned response (or the raised
exception message), the cache after the call, the video ids for which a
background monitoring task was started, and the number of `/generate`
attempts issued. -/
structure GenResult where
  result : Except String VideoGenerationResponse
  cache : Cache
  tasks : List String
  attemptsUsed : Nat
deriving DecidableEq, Repr

/-- The retry loop of `generate_video` (`for attempt in range(3)`).
A non-200 response retries only on 5xx while attempts remain;
its final `raise RuntimeError` sits inside the `try` body, so the
generic `except Exception` re-wraps it with `"Error generating video: "`.
A request error retries while attempts remain, then raises.  On a 200
response the job is cached as `"processing"` with progress 0.0 and one
monitoring task is started. -/
def generateVideoLoop (att : Nat → GenOutcome) (postId : String)
    (cache : Cache) : Nat → Nat → GenResult
  | _, 0 => ⟨.error "loop exhausted", cache, [], 0⟩
  | i, fuel + 1 =>
    match att i with
    | .ok vopt created =>
      let vid := vopt.getD ("video_" ++ postId)
      let resp : VideoGenerationResponse :=
        { video_id := vid, status := "processing", created_at := created }
      let entry : VideoStatus :=
        { video_id := vid, status := "processing", progress := some 0 }
      ⟨.ok resp, cacheInsert cache vid entry, [vid], 1⟩
    | .httpError c =>
      if i < 2 && 500 ≤ c then
        let r := generateVideoLoop att postId cache (i + 1) fuel
        ⟨r.result, r.cache, r.tasks, r.attemptsUsed + 1⟩
      else
        ⟨.error ("Error generating video: MiniMax MCP returned error: " ++ toString c),
          cache, [], 1⟩
    | .reqError m =>
      if i < 2 then
        let r := generateVideoLoop att postId cache (i + 1) fuel
        ⟨r.result, r.cache, r.tasks, r.attemptsUsed + 1⟩
      else
        ⟨.error ("Error communicating with MiniMax MCP: " ++ m), cache, [], 1⟩
    | .exn m =>
      ⟨.error ("Error generating video: " ++ m), cache, [], 1⟩

/-- `MiniMaxService.generate_video`: raise when `ensure_mcp_running`
fails, else run the submission retry loop. -/
def generateVideo (ensureOk : Bool) (att : Nat → GenOutcome)
    (postId : String) (cache : Cache) : GenResult :=
  if ensureOk then generateVideoLoop att postId cache 0 3
  else ⟨.error "Failed to start MiniMax MCP", cache, [], 0⟩

/-- Outcome of one HTTP attempt in `ApifyService._make_request`:
a successful response, an `httpx.HTTPStatusError` from
`raise_for_status` carrying the status code and body text, or a
transport error (`httpx.RequestError` / `asyncio.TimeoutError`). -/
inductive HttpOutcome where
  | success (body : String)
  | statusError (code : Nat) (text : String)
  | requestError (msg : String)
deriving DecidableEq, Repr

/-- Result of `_make_request`: the parsed body or the raised error
message, and the number of HTTP attempts issued. -/
structure MRResult where
  result : Except String String
  attemptsUsed : Nat
deriving DecidableEq, Repr

/-- The retry loop of `ApifyService._make_request`
(`for attempt in range(self.max_retries)` with `max_retries = 3`):
an HTTP status error retries only when the code is 429 or 5xx and
attempts remain, otherwise raises immediately; a request error retries
while attempts remain, then raises.  The fuel-0 branch mirrors the
unreachable trailing `raise RuntimeError("Maximum retry attempts
exceeded")`. -/
def makeRequestLoop (att : Nat → HttpOutcome) : Nat → Nat → MRResult
  | _, 0 => ⟨.error "Maximum retry attempts exceeded", 0⟩
  | i, fuel + 1 =>
    match att i with
    | .success b => ⟨.ok b, 1⟩
    | .statusError c t =>
      if (c = 429 || 500 ≤ c) && i < 2 then
        let r := makeRequestLoop att (i + 1) fuel
        ⟨r.result, r.attemptsUsed + 1⟩
      else
        ⟨.error ("Apify API returned error: " ++ toString c ++ " - " ++ t), 1⟩
    | .requestError m =>
      if i < 2 then
        let r := makeRequestLoop att (i + 1) fuel
        ⟨r.result, r.attemptsUsed + 1⟩
      else
        ⟨.error ("Error communicating with Apify API: " ++ m), 1⟩

/-- `ApifyService._make_request` (retry structure only; rate limiting
is a sleep with no effect on the result). -/
def makeRequest (att : Nat → HttpOutcome) : MRResult :=
  makeRequestLoop att 0 3

/-- An HTTP attempt outcome on which the `_make_request` loop is
allowed to move to another attempt: a transport error, a 429, or
a 5xx response. -/
def retryableOutcome : HttpOutcome → Bool
  | .success _ => false
  | .statusError c _ => c = 429 || 500 ≤ c
  | .requestError _ => true

/-- A `/generate` attempt outcome inside the retry-trigger class the
spec allows (transient transport failures, 5xx, 429). -/
def genRetryTrigger : GenOutcome → Bool
  | .ok _ _ => false
  | .httpError c => c = 429 || 500 ≤ c
  | .reqError _ => true
  | .exn _ => false

/-- Supervisor state seen by `ensure_mcp_running`'s startup critical
section: the worker identity `mcp_pid` and a count of `_start_mcp`
spawns performed so far. -/
structure SupSt where
  pid : Option Nat
  spawns : Nat
deriving DecidableEq, Repr

/-- `self.mcp_pid and await self._check_mcp_health()`: the known
identity exists and the health probe answers. -/
def pidHealthy (healthy : Nat → Bool) : Option Nat → Bool
  | some p => healthy p
  | none => false

/-- The body of `async with self._startup_lock` in
`MiniMaxService.ensure_mcp_running`: re-check whether another caller
already completed startup, and only otherwise run `_start_mcp` (which,
on success, records the fresh worker pid).  The asyncio lock makes this
whole region mutually exclusive, so concurrent callers execute it in
some sequential order. -/
def ensureLocked (healthy : Nat → Bool) (newPid : Nat) (s : SupSt) : SupSt :=
  if pidHealthy healthy s.pid then s
  else { pid := some newPid, spawns := s.spawns + 1 }

/-- One full `ensure_mcp_running` call while no health-check interval
has elapsed: the pre-lock fast path returns early when the known worker
is healthy; otherwise the caller enters the locked region. -/
def ensureCall (healthy : Nat → Bool) (newPid : Nat) (s : SupSt) : SupSt :=
  if pidHealthy healthy s.pid then s
  else ensureLocked healthy newPid s

/-- A sequence of `ensure_mcp_running` callers (serialized by the
startup lock), each spawning a distinct fresh pid if it does start
the worker. -/
def ensureCalls (healthy : Nat → Bool) (ps : List Nat) (s : SupSt) : SupSt :=
  ps.foldl (fun st p => ensureCall healthy p st) s

/-- Probe accounting for the part of `MiniMaxService.ensure_mcp_running`
before the startup lock: `osChecks` counts `_is_process_running`
queries, `healthProbes` counts `_check_mcp_health` HTTP probes,
`pid`/`lastHealthCheck` are the fields after this part, and `early` is
`some true` when the call returns `True` without taking the lock. -/
structure ProbeRes where
  osChecks : Nat
  healthProbes : Nat
  pid : Option Nat
  lastHealthCheck : Nat
  early : Option Bool
deriving DecidableEq, Repr

/-- The pre-lock part of `MiniMaxService.ensure_mcp_running` (lines
168-191): when a pid is known and more than `interval` seconds elapsed
since `last_health_check`, run the OS process check and (short-circuit)
a health probe and drop the pid if either fails; then, whenever a pid
is still known, probe health again and either return `True` or drop
the pid and fall through to the lock. -/
def ensurePreLock (pid : Option Nat) (now lastHealthCheck interval : Nat)
    (procRunning healthOk : Bool) : ProbeRes :=
  match pid with
  | none => ⟨0, 0, none, lastHealthCheck, none⟩
  | some p =>
    if interval < now - lastHealthCheck then
      let hp1 : Nat := if procRunning then 1 else 0
      if !(procRunning && healthOk) then
        ⟨1, hp1, none, now, none⟩
      else
        if healthOk then ⟨1, hp1 + 1, some p, now, some true⟩
        else ⟨1, hp1 + 1, none, now, none⟩
    else
      if healthOk then ⟨0, 1, some p, lastHealthCheck, some true⟩
      else ⟨0, 1, none, lastHealthCheck, none⟩

/-- State touched by `_start_mcp` / `_cleanup_existing_process`:
the owned `Popen` handle and restored pid (both as pids), the persisted
PID file content, and the pids of the actually-running child
processes. -/
structure McpSt where
  mcpProcess : Option Nat
  mcpPid : Option Nat
  pidFile : Option Nat
  liveChildren : List Nat
deriving DecidableEq, Repr

/-- `MiniMaxService._cleanup_existing_process`: terminate (with
escalation) the owned process and the restored pid, then reset both
identity fields; the PID file is not touched here. -/
def cleanupExistingProcess (s : McpSt) : McpSt :=
  { mcpProcess := none
    mcpPid := none
    pidFile := s.pidFile
    liveChildren := s.liveChildren.filter
      (fun q => !(s.mcpProcess == some q || s.mcpPid == some q)) }

/-- `MiniMaxService._start_mcp`: clean up any existing worker, spawn
(`spawnRes = none` models a `Popen` exception), persist the pid, wait
for readiness (`ready`); on either failure clean up the spawned process
and delete the PID file before returning `False`. -/
def startMcp (spawnRes : Option Nat) (ready : Bool) (s : McpSt) : Bool × McpSt :=
  let s1 := cleanupExistingProcess s
  match spawnRes with
  | none =>
    let s2 := cleanupExistingProcess s1
    (false, { s2 with pidFile := none })
  | some p =>
    let s2 : McpSt :=
      { mcpProcess := some p, mcpPid := some p, pidFile := some p
        liveChildren := p :: s1.liveChildren }
    if ready then (true, s2)
    else
      let s3 := cleanupExistingProcess s2
      (false, { s3 with pidFile := none })

/-- Outcome of the `psutil` queries made by `_is_process_running`:
the process information, or one of the exceptions the `except` clause
catches. -/
inductive ProcQuery where
  | found (cmdline : List String) (isRunning : Bool) (isZombie : Bool)
  | noSuchProcess
  | accessDenied
  | zombieProcess
deriving DecidableEq, Repr

/-- `needle` occurs as a contiguous segment at the head of `hay`. -/
def charSegHead : List Char → List Char → Bool
  | [], _ => true
  | _ :: _, [] => false
  | a :: as, b :: bs => a == b && charSegHead as bs

/-- `needle` occurs as a contiguous segment somewhere in `hay`
(Python's `in` on strings). -/
def charSegIn (needle : List Char) : List Char → Bool
  | [] => needle.isEmpty
  | b :: bs => charSegHead needle (b :: bs) || charSegIn needle bs

/-- Python `needle in hay` for strings. -/
def strContainsSub (hay needle : String) : Bool :=
  charSegIn needle.toList hay.toList

/-- Python `s.lower()`. -/
def strLower (s : String) : String :=
  String.mk (s.toList.map Char.toLower)

/-- `"minimax" in " ".join(cmdline).lower() or "uvx" in ...`:
the invocation matches the expected MiniMax worker signature. -/
def cmdlineMatchesWorker (cmdline : List String) : Bool :=
  let joined := strLower (String.intercalate " " cmdline)
  strContainsSub joined "minimax" || strContainsSub joined "uvx"

/-- `MiniMaxService._is_process_running`: a found process counts as
running only when its command line matches the worker signature, it is
running, and it is not a zombie; every caught `psutil` exception yields
`False`. -/
def isProcessRunning (q : ProcQuery) : Bool :=
  match q with
  | .found cmdline run zom =>
    if cmdlineMatchesWorker cmdline then run && !zom else false
  | .noSuchProcess => false
  | .accessDenied => false
  | .zombieProcess => false

/-! Shared lemmas about the status cache -/

theorem cacheFind_insert_self (c : Cache) (k : String) (v : VideoStatus) :
    cacheFind (cacheInsert c k v) k = some v := by
  induction c with
  | nil => simp [cacheInsert, cacheFind]
  | cons hd tl ih =>
    obtain ⟨k1, v1⟩ := hd
    by_cases h : k1 = k
    · simp [cacheInsert, h, cacheFind]
    · simp [cacheInsert, h, cacheFind, ih]

theorem getVideoStatus_terminal (eok : Bool) (att : Nat → QueryOutcome)
    (cache : Cache) (vid : String) (cs : VideoStatus)
    (h1 : cacheFind cache vid = some cs) (h2 : terminalStatus cs.status = true) :
    getVideoStatus eok att cache vid = ⟨.ok cs, cache, 0⟩ := by
  simp [getVideoStatus, h1, h2]

/-! Claim C1 -/

/-- C1: once the cached status of a video id is terminal
(`"completed"` or `"failed"`), `get_video_status` returns the cached
`VideoStatus` unchanged and issues no status query to the remote
worker, and no later polling pass (`_monitor_video_generation`)
overwrites the cached terminal value. -/
theorem c1_terminal_cache_immutable (eok : Bool) (att : Nat → QueryOutcome)
    (orc : MonOracle) (cache : Cache) (vid : String) (cs : VideoStatus)
    (h1 : cacheFind cache vid = some cs)
    (h2 : cs.status = "completed" ∨ cs.status = "failed") :
    getVideoStatus eok att cache vid = ⟨.ok cs, cache, 0⟩ ∧
    (monitorVideoGeneration orc vid cache).cache = cache := by
  have hterm : terminalStatus cs.status = true := by
    rcases h2 with h | h <;> simp [terminalStatus, h]
  have hget := getVideoStatus_terminal eok att cache vid cs h1 hterm
  refine ⟨hget, ?_⟩
  have hget0 := getVideoStatus_terminal (orc 0).1 (orc 0).2 cache vid cs h1 hterm
  have hnp : cs.status ≠ "processing" := by
    rcases h2 with h | h <;> simp [h]
  unfold monitorVideoGeneration
  rw [show (60 : Nat) = 59 + 1 from rfl, monitorLoop, hget0]
  simp [hterm, h1, hnp]

/-- Witness for C1 at a concrete completed job. -/
theorem c1_terminal_cache_immutable_witness :
    getVideoStatus true (fun _ => QueryOutcome.exn "boom")
        [("v1", { video_id := "v1", status := "completed" })] "v1" =
      ⟨.ok { video_id := "v1", status := "completed" },
        [("v1", { video_id := "v1", status := "completed" })], 0⟩ ∧
    (monitorVideoGeneration (fun _ => (true, fun _ => QueryOutcome.exn "boom")) "v1"
        [("v1", { video_id := "v1", status := "completed" })]).cache =
      [("v1", { video_id := "v1", status := "completed" })] :=
  c1_terminal_cache_immutable true (fun _ => QueryOutcome.exn "boom")
    (fun _ => (true, fun _ => QueryOutcome.exn "boom"))
    [("v1", { video_id := "v1", status := "completed" })] "v1"
    { video_id := "v1", status := "completed" } (by decide) (Or.inl rfl)

/-! Claim C7 -/

/-- C7: `_is_process_running` treats every caught OS error
(no-such-process, access-denied, zombie) as `False`, yields `False` for
a zombie process, and yields `False` for a running process whose
command line does not match the expected worker signature; it always
returns a boolean rather than propagating an error. -/
theorem c7_is_process_running_safe :
    isProcessRunning ProcQuery.noSuchProcess = false ∧
    isProcessRunning ProcQuery.accessDenied = false ∧
    isProcessRunning ProcQuery.zombieProcess = false ∧
    (∀ (cmd : List String) (run : Bool),
      isProcessRunning (ProcQuery.found cmd run true) = false) ∧
    (∀ (cmd : List String) (run zom : Bool),
      cmdlineMatchesWorker cmd = false →
      isProcessRunning (ProcQuery.found cmd run zom) = false) := by
  refine ⟨rfl, rfl, rfl, ?_, ?_⟩
  · intro cmd run
    by_cases h : cmdlineMatchesWorker cmd = true <;> simp [isProcessRunning, h]
  · intro cmd run zom h
    simp [isProcessRunning, h]

/-- Witness for C7 at a PID reused by an unrelated process. -/
theorem c7_is_process_running_safe_witness :
    cmdlineMatchesWorker ["python3", "server.py"] = false ∧
    isProcessRunning (ProcQuery.found ["python3", "server.py"] true false) = false :=
  ⟨by decide,
    c7_is_process_running_safe.2.2.2.2 ["python3", "server.py"] true false (by decide)⟩

/-! Claim C4 -/

/-- C4: with no worker initially, any nonempty sequence of
`ensure_mcp_running` callers — serialized by the startup lock, each
re-checking inside the lock whether startup already completed —
performs exactly one spawn, provided the spawned workers pass their
health checks. -/
theorem c4_single_spawn (healthy : Nat → Bool) (ps : List Nat)
    (hall : ∀ p ∈ ps, healthy p = true) (hne : ps ≠ []) :
    (ensureCalls healthy ps ⟨none, 0⟩).spawns = 1 := by
  match ps, hne with
  | q :: rest, _ =>
    have hq : healthy q = true := hall q (List.mem_cons_self q rest)
    have hfirst : ensureCall healthy q ⟨none, 0⟩ = ⟨some q, 1⟩ := by
      simp [ensureCall, ensureLocked, pidHealthy]
    have hstable : ∀ (l : List Nat) (s : SupSt),
        (∀ p ∈ l, healthy p = true) → pidHealthy healthy s.pid = true →
        ensureCalls healthy l s = s := by
      intro l
      induction l with
      | nil => intro s _ _; rfl
      | cons x xs ih =>
        intro s hl hs
        have : ensureCall healthy x s = s := by simp [ensureCall, hs]
        simp only [ensureCalls, List.foldl_cons, this]
        exact ih s (fun p hp => hl p (List.mem_cons_of_mem x hp)) hs
    have hrest : ∀ p ∈ rest, healthy p = true :=
      fun p hp => hall p (List.mem_cons_of_mem q hp)
    calc (ensureCalls healthy (q :: rest) ⟨none, 0⟩).spawns
        = (ensureCalls healthy rest (ensureCall healthy q ⟨none, 0⟩)).spawns := rfl
      _ = (ensureCalls healthy rest ⟨some q, 1⟩).spawns := by rw [hfirst]
      _ = (SupSt.mk (some q) 1).spawns := by
            rw [hstable rest ⟨some q, 1⟩ hrest (by simpa [pidHealthy] using hq)]
      _ = 1 := rfl

/-- Witness for C4 with three concurrent callers. -/
theorem c4_single_spawn_witness :
    (ensureCalls (fun _ => true) [11, 12, 13] ⟨none, 0⟩).spawns = 1 :=
  c4_single_spawn (fun _ => true) [11, 12, 13] (fun _ _ => rfl) (by decide)

/-! Claim C5 -/

/-- C5 fails on the code: with a known worker pid and only 10 of the 60
interval seconds elapsed since the last check, `ensure_mcp_running`
still issues a `_check_mcp_health` liveness probe — the probe is not
gated by the health-check interval. -/
theorem c5_probe_counterexample :
    (ensurePreLock (some 5) 100 90 60 true true).healthProbes = 1 ∧
    ¬ (60 < 100 - 90) := by
  constructor
  · rfl
  · decide

/-- C5 amended: `ensure_mcp_running` gates only the OS-level
`_is_process_running` check behind the 60-second health-check
interval; when a worker identity is known it issues an endpoint health
probe (`_check_mcp_health`) on every call, even inside the interval,
and when no identity is known it issues no check at all. -/
theorem c5_amended_interval_gates_os_check (pid : Option Nat)
    (now lastC : Nat) (procR healthOk : Bool) :
    ((ensurePreLock pid now lastC 60 procR healthOk).osChecks =
      if pid.isSome ∧ 60 < now - lastC then 1 else 0) ∧
    (∀ p, pid = some p → ¬ (60 < now - lastC) →
      (ensurePreLock pid now lastC 60 procR healthOk).healthProbes = 1) ∧
    (pid = none →
      (ensurePreLock pid now lastC 60 procR healthOk).osChecks = 0 ∧
      (ensurePreLock pid now lastC 60 procR healthOk).healthProbes = 0) := by
  refine ⟨?_, ?_, ?_⟩
  · cases pid with
    | none => simp [ensurePreLock]
    | some p =>
      by_cases h : 60 < now - lastC
      · simp only [ensurePreLock, if_pos h]
        cases procR <;> cases healthOk <;> simp [h]
      · simp only [ensurePreLock, if_neg h]
        cases healthOk <;> simp [h]
  · intro p hp h
    subst hp
    simp only [ensurePreLock, if_neg h]
    cases healthOk <;> rfl
  · intro hp
    subst hp
    exact ⟨rfl, rfl⟩

/-- Witness for C5's amended claim inside the interval. -/
theorem c5_amended_interval_gates_os_check_witness :
    (ensurePreLock (some 7) 50 20 60 true true).osChecks = 0 ∧
    (ensurePreLock (some 7) 50 20 60 true true).healthProbes = 1 := by
  have h := c5_amended_interval_gates_os_check (some 7) 50 20 true true
  refine ⟨?_, h.2.1 7 rfl (by decide)⟩
  rw [h.1]
  decide

/-! Claim C6 -/

/-- C6: whenever `_start_mcp` returns `False` — spawn exception, early
child exit, or readiness timeout — the in-memory identity fields are
both `None`, the persisted PID file is deleted, and any process it
spawned is no longer running. -/
theorem c6_start_mcp_cleanup (spawnRes : Option Nat) (ready : Bool)
    (s : McpSt) (hfail : (startMcp spawnRes ready s).1 = false) :
    (startMcp spawnRes ready s).2.mcpProcess = none ∧
    (startMcp spawnRes ready s).2.mcpPid = none ∧
    (startMcp spawnRes ready s).2.pidFile = none ∧
    (∀ p, spawnRes = some p → p ∉ (startMcp spawnRes ready s).2.liveChildren) := by
  cases spawnRes with
  | none =>
    refine ⟨rfl, rfl, rfl, ?_⟩
    intro p hp
    exact absurd hp (by simp)
  | some q =>
    cases ready with
    | true => exact absurd hfail (by simp [startMcp])
    | false =>
      refine ⟨rfl, rfl, rfl, ?_⟩
      intro p hp
      have hpq : q = p := by injection hp
      subst hpq
      intro hmem
      simp [startMcp, cleanupExistingProcess, List.mem_filter] at hmem

/-- Witness for C6: a readiness timeout after spawning pid 7. -/
theorem c6_start_mcp_cleanup_witness :
    (startMcp (some 7) false ⟨none, none, none, []⟩).2.mcpProcess = none ∧
    (startMcp (some 7) false ⟨none, none, none, []⟩).2.mcpPid = none ∧
    (startMcp (some 7) false ⟨none, none, none, []⟩).2.pidFile = none ∧
    (∀ p, (some 7 : Option Nat) = some p →
      p ∉ (startMcp (some 7) false ⟨none, none, none, []⟩).2.liveChildren) :=
  c6_start_mcp_cleanup (some 7) false ⟨none, none, none, []⟩ (by decide)

/-! Claim C3 -/

theorem makeRequestLoop_attempts_le (att : Nat → HttpOutcome) :
    ∀ (fuel i : Nat), (makeRequestLoop att i fuel).attemptsUsed ≤ fuel := by
  intro fuel
  induction fuel with
  | zero => intro i; simp [makeRequestLoop]
  | succ n ih =>
    intro i
    cases h : att i with
    | success b => simp [makeRequestLoop, h]
    | statusError c t =>
      simp only [makeRequestLoop, h]
      split
      · exact Nat.succ_le_succ (ih (i + 1))
      · simp
    | requestError m =>
      simp only [makeRequestLoop, h]
      split
      · exact Nat.succ_le_succ (ih (i + 1))
      · simp

theorem makeRequestLoop_retryable (att : Nat → HttpOutcome) :
    ∀ (fuel i j : Nat), j + 1 < (makeRequestLoop att i fuel).attemptsUsed →
      retryableOutcome (att (i + j)) = true := by
  intro fuel
  induction fuel with
  | zero => intro i j h; simp [makeRequestLoop] at h
  | succ n ih =>
    intro i j h
    cases hatt : att i with
    | success b =>
      simp [makeRequestLoop, hatt] at h
    | statusError c t =>
      simp only [makeRequestLoop, hatt] at h
      split at h
      · rename_i hc
        dsimp only at h
        cases j with
        | zero =>
          have hcc : (c = 429 || 500 ≤ c : Bool) = true := by
            rw [Bool.and_eq_true] at hc
            exact hc.1
          simpa [retryableOutcome, hatt] using hcc
        | succ j1 =>
          have h2 : j1 + 1 < (makeRequestLoop att (i + 1) n).attemptsUsed := by omega
          have hr := ih (i + 1) j1 h2
          have heq : i + 1 + j1 = i + (j1 + 1) := by omega
          rwa [heq] at hr
      · dsimp only at h
        omega
    | requestError m =>
      simp only [makeRequestLoop, hatt] at h
      split at h
      · cases j with
        | zero => simp [retryableOutcome, hatt]
        | succ j1 =>
          dsimp only at h
          have h2 : j1 + 1 < (makeRequestLoop att (i + 1) n).attemptsUsed := by omega
          have hr := ih (i + 1) j1 h2
          have heq : i + 1 + j1 = i + (j1 + 1) := by omega
          rwa [heq] at hr
      · dsimp only at h
        omega

theorem generateVideoLoop_attempts_le (att : Nat → GenOutcome)
    (postId : String) (cache : Cache) :
    ∀ (fuel i : Nat), (generateVideoLoop att postId cache i fuel).attemptsUsed ≤ fuel := by
  intro fuel
  induction fuel with
  | zero => intro i; simp [generateVideoLoop]
  | succ n ih =>
    intro i
    cases h : att i with
    | ok v cr => simp [generateVideoLoop, h]
    | httpError c =>
      simp only [generateVideoLoop, h]
      split
      · exact Nat.succ_le_succ (ih (i + 1))
      · simp
    | reqError m =>
      simp only [generateVideoLoop, h]
      split
      · exact Nat.succ_le_succ (ih (i + 1))
      · simp
    | exn m => simp [generateVideoLoop, h]

theorem generateVideoLoop_retryable (att : Nat → GenOutcome)
    (postId : String) (cache : Cache) :
    ∀ (fuel i j : Nat),
      j + 1 < (generateVideoLoop att postId cache i fuel).attemptsUsed →
      genRetryTrigger (att (i + j)) = true := by
  intro fuel
  induction fuel with
  | zero => intro i j h; simp [generateVideoLoop] at h
  | succ n ih =>
    intro i j h
    cases hatt : att i with
    | ok v cr =>
      rw [generateVideoLoop, hatt] at h
      simp at h
    | httpError c =>
      simp only [generateVideoLoop, hatt] at h
      split at h
      · rename_i hc
        dsimp only at h
        cases j with
        | zero =>
          have hcc : (500 ≤ c : Bool) = true := by
            rw [Bool.and_eq_true] at hc
            exact hc.2
          simp [genRetryTrigger, hatt, hcc]
        | succ j1 =>
          have h2 : j1 + 1 < (generateVideoLoop att postId cache (i + 1) n).attemptsUsed := by
            omega
          have hr := ih (i + 1) j1 h2
          have heq : i + 1 + j1 = i + (j1 + 1) := by omega
          rwa [heq] at hr
      · dsimp only at h
        omega
    | reqError m =>
      simp only [generateVideoLoop, hatt] at h
      split at h
      · cases j with
        | zero => simp [genRetryTrigger, hatt]
        | succ j1 =>
          dsimp only at h
          have h2 : j1 + 1 < (generateVideoLoop att postId cache (i + 1) n).attemptsUsed := by
            omega
          have hr := ih (i + 1) j1 h2
          have heq : i + 1 + j1 = i + (j1 + 1) := by omega
          rwa [heq] at hr
      · dsimp only at h
        omega
    | exn m =>
      simp [generateVideoLoop, hatt] at h

/-- C3: both gateway request loops make at most 3 attempts; a retry is
performed only when the failed attempt was a transient transport error,
a 429, or a 5xx response; a client-side error such as HTTP 400 is
surfaced immediately as an error after a single attempt (zero
retries). -/
theorem c3_retry_policy (att : Nat → HttpOutcome) (attG : Nat → GenOutcome)
    (c : Nat) (t postId : String) (cache : Cache) :
    (makeRequest att).attemptsUsed ≤ 3 ∧
    (∀ j, j + 1 < (makeRequest att).attemptsUsed → retryableOutcome (att j) = true) ∧
    (¬ (c = 429 ∨ 500 ≤ c) → att 0 = HttpOutcome.statusError c t →
      (makeRequest att).result =
        .error ("Apify API returned error: " ++ toString c ++ " - " ++ t) ∧
      (makeRequest att).attemptsUsed = 1) ∧
    (generateVideo true attG postId cache).attemptsUsed ≤ 3 ∧
    (∀ j, j + 1 < (generateVideo true attG postId cache).attemptsUsed →
      genRetryTrigger (attG j) = true) ∧
    (¬ (c = 429 ∨ 500 ≤ c) → attG 0 = GenOutcome.httpError c →
      (generateVideo true attG postId cache).result =
        .error ("Error generating video: MiniMax MCP returned error: " ++ toString c) ∧
      (generateVideo true attG postId cache).attemptsUsed = 1) := by
  refine ⟨makeRequestLoop_attempts_le att 3 0, ?_, ?_, ?_, ?_, ?_⟩
  · intro j h
    have hr := makeRequestLoop_retryable att 3 0 j h
    simpa using hr
  · intro hc hatt
    rcases not_or.mp hc with ⟨h1, h2⟩
    have hres : makeRequest att =
        ⟨.error ("Apify API returned error: " ++ toString c ++ " - " ++ t), 1⟩ := by
      unfold makeRequest
      rw [show (3 : Nat) = 2 + 1 from rfl, makeRequestLoop, hatt]
      simp [h1, h2]
    rw [hres]
    exact ⟨rfl, rfl⟩
  · exact generateVideoLoop_attempts_le attG postId cache 3 0
  · intro j h
    have hr := generateVideoLoop_retryable attG postId cache 3 0 j h
    simpa using hr
  · intro hc hatt
    rcases not_or.mp hc with ⟨h1, h2⟩
    have hgen : generateVideo true attG postId cache =
        generateVideoLoop attG postId cache 0 3 := rfl
    have hres : generateVideo true attG postId cache =
        ⟨.error ("Error generating video: MiniMax MCP returned error: " ++ toString c),
          cache, [], 1⟩ := by
      rw [hgen, show (3 : Nat) = 2 + 1 from rfl, generateVideoLoop, hatt]
      simp [h2]
    rw [hres]
    exact ⟨rfl, rfl⟩

/-- Witness for C3: an HTTP 400 on both gateways fails in one attempt. -/
theorem c3_retry_policy_witness :
    ¬ ((400 : Nat) = 429 ∨ 500 ≤ 400) ∧
    (makeRequest (fun _ => HttpOutcome.statusError 400 "bad")).result =
      .error ("Apify API returned error: " ++ toString 400 ++ " - " ++ "bad") ∧
    (makeRequest (fun _ => HttpOutcome.statusError 400 "bad")).attemptsUsed = 1 ∧
    (generateVideo true (fun _ => GenOutcome.httpError 400) "p1" []).result =
      .error ("Error generating video: MiniMax MCP returned error: " ++ toString 400) ∧
    (generateVideo true (fun _ => GenOutcome.httpError 400) "p1" []).attemptsUsed = 1 := by
  have h := c3_retry_policy (fun _ => HttpOutcome.statusError 400 "bad")
    (fun _ => GenOutcome.httpError 400) 400 "bad" "p1" []
  have hne : ¬ ((400 : Nat) = 429 ∨ 500 ≤ 400) := by decide
  have h1 := h.2.2.1 hne rfl
  have h2 := h.2.2.2.2.2 hne rfl
  exact ⟨hne, h1.1, h1.2, h2.1, h2.2⟩

/-! Claim C9 -/

theorem generateVideoLoop_spec (att : Nat → GenOutcome) (postId : String)
    (cache : Cache) :
    ∀ (fuel i : Nat),
      (∀ resp, (generateVideoLoop att postId cache i fuel).result = .ok resp →
        resp.status = "processing" ∧
        (generateVideoLoop att postId cache i fuel).cache =
          cacheInsert cache resp.video_id
            { video_id := resp.video_id, status := "processing", progress := some 0 } ∧
        (generateVideoLoop att postId cache i fuel).tasks = [resp.video_id]) ∧
      (∀ e, (generateVideoLoop att postId cache i fuel).result = .error e →
        (generateVideoLoop att postId cache i fuel).cache = cache ∧
        (generateVideoLoop att postId cache i fuel).tasks = []) := by
  intro fuel
  induction fuel with
  | zero =>
    intro i
    refine ⟨?_, fun e _ => ⟨rfl, rfl⟩⟩
    intro resp h
    simp [generateVideoLoop] at h
  | succ n ih =>
    intro i
    cases hatt : att i with
    | ok v cr =>
      have e1 : generateVideoLoop att postId cache i (n + 1) =
          ⟨.ok { video_id := v.getD ("video_" ++ postId), status := "processing",
                  created_at := cr },
            cacheInsert cache (v.getD ("video_" ++ postId))
              { video_id := v.getD ("video_" ++ postId), status := "processing",
                progress := some 0 },
            [v.getD ("video_" ++ postId)], 1⟩ := by
        simp [generateVideoLoop, hatt]
      rw [e1]
      refine ⟨?_, ?_⟩
      · intro resp h
        dsimp only at h
        rw [Except.ok.injEq] at h
        subst h
        exact ⟨rfl, rfl, rfl⟩
      · intro e h
        dsimp only at h
        simp at h
    | httpError c =>
      by_cases hc : ((decide (i < 2)) && decide (500 ≤ c)) = true
      · have e1 : generateVideoLoop att postId cache i (n + 1) =
            ⟨(generateVideoLoop att postId cache (i + 1) n).result,
              (generateVideoLoop att postId cache (i + 1) n).cache,
              (generateVideoLoop att postId cache (i + 1) n).tasks,
              (generateVideoLoop att postId cache (i + 1) n).attemptsUsed + 1⟩ := by
          simp [generateVideoLoop, hatt, hc]
        rw [e1]
        exact ih (i + 1)
      · have e1 : generateVideoLoop att postId cache i (n + 1) =
            ⟨.error ("Error generating video: MiniMax MCP returned error: " ++ toString c),
              cache, [], 1⟩ := by
          simp [generateVideoLoop, hatt, hc]
        rw [e1]
        refine ⟨?_, fun e _ => ⟨rfl, rfl⟩⟩
        intro resp h
        simp at h
    | reqError m =>
      by_cases hc : i < 2
      · have e1 : generateVideoLoop att postId cache i (n + 1) =
            ⟨(generateVideoLoop att postId cache (i + 1) n).result,
              (generateVideoLoop att postId cache (i + 1) n).cache,
              (generateVideoLoop att postId cache (i + 1) n).tasks,
              (generateVideoLoop att postId cache (i + 1) n).attemptsUsed + 1⟩ := by
          simp [generateVideoLoop, hatt, hc]
        rw [e1]
        exact ih (i + 1)
      · have e1 : generateVideoLoop att postId cache i (n + 1) =
            ⟨.error ("Error communicating with MiniMax MCP: " ++ m), cache, [], 1⟩ := by
          simp [generateVideoLoop, hatt, hc]
        rw [e1]
        refine ⟨?_, fun e _ => ⟨rfl, rfl⟩⟩
        intro resp h
        simp at h
    | exn m =>
      have e1 : generateVideoLoop att postId cache i (n + 1) =
          ⟨.error ("Error generating video: " ++ m), cache, [], 1⟩ := by
        simp [generateVideoLoop, hatt]
      rw [e1]
      refine ⟨?_, fun e _ => ⟨rfl, rfl⟩⟩
      intro resp h
      simp at h

/-- C9: a successful submission returns a `"processing"` response,
creates exactly one `"processing"`/progress-0 cache entry for the
returned video id, and starts exactly one background polling task for
it; a failed submission raises the gateway's error, leaves the status
cache unchanged, and starts no task. -/
theorem c9_generate_video (ensureOk : Bool) (att : Nat → GenOutcome)
    (postId : String) (cache : Cache) :
    (∀ resp, (generateVideo ensureOk att postId cache).result = .ok resp →
      resp.status = "processing" ∧
      (generateVideo ensureOk att postId cache).cache =
        cacheInsert cache resp.video_id
          { video_id := resp.video_id, status := "processing", progress := some 0 } ∧
      (generateVideo ensureOk att postId cache).tasks = [resp.video_id]) ∧
    (∀ e, (generateVideo ensureOk att postId cache).result = .error e →
      (generateVideo ensureOk att postId cache).cache = cache ∧
      (generateVideo ensureOk att postId cache).tasks = []) := by
  cases ensureOk with
  | false =>
    refine ⟨?_, fun e _ => ⟨rfl, rfl⟩⟩
    intro resp h
    simp [generateVideo] at h
  | true => exact generateVideoLoop_spec att postId cache 3 0

/-- Witness for C9 at a fresh successful submission. -/
theorem c9_generate_video_witness :
    ({ video_id := "v9", status := "processing", created_at := none } :
        VideoGenerationResponse).status = "processing" ∧
    (generateVideo true (fun _ => GenOutcome.ok (some "v9") none) "p9" []).cache =
      cacheInsert [] "v9"
        { video_id := "v9", status := "processing", progress := some 0 } ∧
    (generateVideo true (fun _ => GenOutcome.ok (some "v9") none) "p9" []).tasks =
      ["v9"] := by
  have h := (c9_generate_video true (fun _ => GenOutcome.ok (some "v9") none) "p9" []).1
    { video_id := "v9", status := "processing", created_at := none } (by decide)
  exact ⟨h.1, h.2.1, h.2.2⟩

/-! Evaluation lemmas for the status-query retry loop -/

theorem statusQueryLoop_ok (att : Nat → QueryOutcome) (vid : String)
    (d : StatusData) (i fuel : Nat) (cache : Cache) (hatt : att i = .ok d) :
    statusQueryLoop att vid i (fuel + 1) cache =
      ⟨.ok (mkStatusFromData vid d), cacheInsert cache vid (mkStatusFromData vid d), 1⟩ := by
  rw [statusQueryLoop, hatt]

theorem statusQueryLoop_step_reqError (att : Nat → QueryOutcome) (vid m : String)
    (i fuel : Nat) (cache : Cache) (hi : i < 2) (hatt : att i = .reqError m) :
    statusQueryLoop att vid i (fuel + 1) cache =
      ⟨(statusQueryLoop att vid (i + 1) fuel cache).result,
        (statusQueryLoop att vid (i + 1) fuel cache).cache,
        (statusQueryLoop att vid (i + 1) fuel cache).queries + 1⟩ := by
  rw [statusQueryLoop, hatt]
  dsimp only
  rw [if_pos hi]

theorem statusQueryLoop_final_reqError_cached (att : Nat → QueryOutcome)
    (vid m : String) (i fuel : Nat) (cache : Cache) (cs : VideoStatus)
    (hi : ¬ i < 2) (hatt : att i = .reqError m)
    (h1 : cacheFind cache vid = some cs) (hne : cs.status ≠ "completed") :
    statusQueryLoop att vid i (fuel + 1) cache =
      ⟨.ok { cs with error := some ("Error communicating with MCP: " ++ m) },
        cacheInsert cache vid { cs with error := some ("Error communicating with MCP: " ++ m) },
        1⟩ := by
  rw [statusQueryLoop, hatt]
  dsimp only
  rw [if_neg hi, h1]
  dsimp only
  rw [if_pos hne, cacheFind_insert_self]
  rfl

theorem statusQueryLoop_final_reqError_uncached (att : Nat → QueryOutcome)
    (vid m : String) (i fuel : Nat) (cache : Cache)
    (hi : ¬ i < 2) (hatt : att i = .reqError m)
    (h1 : cacheFind cache vid = none) :
    statusQueryLoop att vid i (fuel + 1) cache =
      ⟨.ok { video_id := vid, status := "failed",
              error := some ("Error communicating with MCP: " ++ m) },
        cache, 1⟩ := by
  rw [statusQueryLoop, hatt]
  dsimp only
  rw [if_neg hi, h1]
  dsimp only
  rw [h1]
  rfl

theorem statusQueryLoop_step_httpError (att : Nat → QueryOutcome) (vid : String)
    (c : Nat) (i fuel : Nat) (cache : Cache)
    (hcond : ((i < 2 : Bool) && (500 ≤ c : Bool)) = true)
    (hatt : att i = .httpError c) :
    statusQueryLoop att vid i (fuel + 1) cache =
      ⟨(statusQueryLoop att vid (i + 1) fuel cache).result,
        (statusQueryLoop att vid (i + 1) fuel cache).cache,
        (statusQueryLoop att vid (i + 1) fuel cache).queries + 1⟩ := by
  rw [statusQueryLoop, hatt]
  simp [hcond]

theorem statusQueryLoop_final_httpError_cached (att : Nat → QueryOutcome)
    (vid : String) (c : Nat) (i fuel : Nat) (cache : Cache) (cs : VideoStatus)
    (hcond : ((i < 2 : Bool) && (500 ≤ c : Bool)) = false)
    (hatt : att i = .httpError c) (h1 : cacheFind cache vid = some cs) :
    statusQueryLoop att vid i (fuel + 1) cache =
      ⟨.ok { video_id := vid, status := "failed",
              error := some ("MCP returned error: " ++ toString c) },
        cacheInsert cache vid
          { cs with status := "failed", error := some ("MCP returned error: " ++ toString c) },
        1⟩ := by
  rw [statusQueryLoop, hatt]
  simp [hcond, h1]

theorem statusQueryLoop_final_httpError_uncached (att : Nat → QueryOutcome)
    (vid : String) (c : Nat) (i fuel : Nat) (cache : Cache)
    (hcond : ((i < 2 : Bool) && (500 ≤ c : Bool)) = false)
    (hatt : att i = .httpError c) (h1 : cacheFind cache vid = none) :
    statusQueryLoop att vid i (fuel + 1) cache =
      ⟨.ok { video_id := vid, status := "failed",
              error := some ("MCP returned error: " ++ toString c) },
        cache, 1⟩ := by
  rw [statusQueryLoop, hatt]
  simp [hcond, h1]

theorem getVideoStatus_nonterminal_cached (att : Nat → QueryOutcome)
    (cache : Cache) (vid : String) (cs : VideoStatus)
    (h1 : cacheFind cache vid = some cs) (hterm : terminalStatus cs.status = false) :
    getVideoStatus true att cache vid = statusQueryLoop att vid 0 3 cache := by
  simp [getVideoStatus, h1, hterm, getVideoStatusBody]

theorem getVideoStatus_uncached (att : Nat → QueryOutcome)
    (cache : Cache) (vid : String) (h1 : cacheFind cache vid = none) :
    getVideoStatus true att cache vid = statusQueryLoop att vid 0 3 cache := by
  simp [getVideoStatus, h1, getVideoStatusBody]

/-! Claim C2 -/

/-- C2 as stated is false on the code: with a cached `"processing"`
entry, a status query answered by a non-retryable HTTP error response
(400) does not preserve the cached non-terminal status — the cached
entry is overwritten to `"failed"` and a synthetic failed status is
returned. -/
theorem c2_error_response_counterexample :
    (cacheFind (getVideoStatus true (fun _ => QueryOutcome.httpError 400)
        [("v1", { video_id := "v1", status := "processing" })] "v1").cache "v1").map
        VideoStatus.status = some "failed" ∧
    ¬ ((cacheFind (getVideoStatus true (fun _ => QueryOutcome.httpError 400)
        [("v1", { video_id := "v1", status := "processing" })] "v1").cache "v1").map
        VideoStatus.status = some "processing") ∧
    (getVideoStatus true (fun _ => QueryOutcome.httpError 400)
        [("v1", { video_id := "v1", status := "processing" })] "v1").result =
      Except.ok { video_id := "v1", status := "failed",
                  error := some ("MCP returned error: " ++ toString 400) } := by
  refine ⟨?_, ?_, ?_⟩ <;> decide

/-- C2 amended: on a transport/request error with a cached entry,
`get_video_status` preserves the cached non-terminal status and only
attaches the error detail (so the failure is never promoted into
`"completed"`); on an HTTP error response with a cached entry, the
cached status is overwritten to `"failed"` with the error attached and
a synthetic `"failed"` status is returned; with no cached entry, a
synthetic `"failed"` status carrying the error is returned. -/
theorem c2_gateway_failure_amended (vid m : String) (c : Nat) (cache : Cache)
    (cs : VideoStatus) :
    (cacheFind cache vid = some cs → cs.status ≠ "completed" → cs.status ≠ "failed" →
      (getVideoStatus true (fun _ => QueryOutcome.reqError m) cache vid).result =
        .ok { cs with error := some ("Error communicating with MCP: " ++ m) } ∧
      (getVideoStatus true (fun _ => QueryOutcome.reqError m) cache vid).cache =
        cacheInsert cache vid { cs with error := some ("Error communicating with MCP: " ++ m) } ∧
      (getVideoStatus true (fun _ => QueryOutcome.httpError c) cache vid).result =
        .ok { video_id := vid, status := "failed",
              error := some ("MCP returned error: " ++ toString c) } ∧
      (getVideoStatus true (fun _ => QueryOutcome.httpError c) cache vid).cache =
        cacheInsert cache vid
          { cs with status := "failed", error := some ("MCP returned error: " ++ toString c) }) ∧
    (cacheFind cache vid = none →
      (getVideoStatus true (fun _ => QueryOutcome.reqError m) cache vid).result =
        .ok { video_id := vid, status := "failed",
              error := some ("Error communicating with MCP: " ++ m) } ∧
      (getVideoStatus true (fun _ => QueryOutcome.reqError m) cache vid).cache = cache) := by
  constructor
  · intro h1 hne1 hne2
    have hterm : terminalStatus cs.status = false := by
      simp [terminalStatus, hne1, hne2]
    have hredR := getVideoStatus_nonterminal_cached
      (fun _ => QueryOutcome.reqError m) cache vid cs h1 hterm
    have hredH := getVideoStatus_nonterminal_cached
      (fun _ => QueryOutcome.httpError c) cache vid cs h1 hterm
    have hqR : statusQueryLoop (fun _ => QueryOutcome.reqError m) vid 0 3 cache =
        ⟨.ok { cs with error := some ("Error communicating with MCP: " ++ m) },
          cacheInsert cache vid { cs with error := some ("Error communicating with MCP: " ++ m) },
          3⟩ := by
      rw [show (3 : Nat) = 2 + 1 from rfl,
        statusQueryLoop_step_reqError (fun _ => QueryOutcome.reqError m) vid m 0 2 cache
          (by omega) rfl,
        show (2 : Nat) = 1 + 1 from rfl,
        statusQueryLoop_step_reqError (fun _ => QueryOutcome.reqError m) vid m (0 + 1) 1 cache
          (by omega) rfl,
        show (1 : Nat) = 0 + 1 from rfl,
        statusQueryLoop_final_reqError_cached (fun _ => QueryOutcome.reqError m) vid m
          (0 + 1 + 1) 0 cache cs (by omega) rfl h1 hne1]
    have hqH : statusQueryLoop (fun _ => QueryOutcome.httpError c) vid 0 3 cache =
        ⟨.ok { video_id := vid, status := "failed",
                error := some ("MCP returned error: " ++ toString c) },
          cacheInsert cache vid
            { cs with status := "failed", error := some ("MCP returned error: " ++ toString c) },
          (statusQueryLoop (fun _ => QueryOutcome.httpError c) vid 0 3 cache).queries⟩ := by
      by_cases h5 : 500 ≤ c
      · rw [show (3 : Nat) = 2 + 1 from rfl,
          statusQueryLoop_step_httpError (fun _ => QueryOutcome.httpError c) vid c 0 2 cache
            (by simp [h5]) rfl,
          show (2 : Nat) = 1 + 1 from rfl,
          statusQueryLoop_step_httpError (fun _ => QueryOutcome.httpError c) vid c (0 + 1) 1 cache
            (by simp [h5]) rfl,
          show (1 : Nat) = 0 + 1 from rfl,
          statusQueryLoop_final_httpError_cached (fun _ => QueryOutcome.httpError c) vid c
            (0 + 1 + 1) 0 cache cs (by simp) rfl h1]
      · rw [show (3 : Nat) = 2 + 1 from rfl,
          statusQueryLoop_final_httpError_cached (fun _ => QueryOutcome.httpError c) vid c
            0 2 cache cs (by simp [h5]) rfl h1]
    refine ⟨?_, ?_, ?_, ?_⟩
    · rw [hredR, hqR]
    · rw [hredR, hqR]
    · rw [hredH, hqH]
    · rw [hredH, hqH]
  · intro h1
    have hred := getVideoStatus_uncached (fun _ => QueryOutcome.reqError m) cache vid h1
    have hq : statusQueryLoop (fun _ => QueryOutcome.reqError m) vid 0 3 cache =
        ⟨.ok { video_id := vid, status := "failed",
                error := some ("Error communicating with MCP: " ++ m) },
          cache, 3⟩ := by
      rw [show (3 : Nat) = 2 + 1 from rfl,
        statusQueryLoop_step_reqError (fun _ => QueryOutcome.reqError m) vid m 0 2 cache
          (by omega) rfl,
        show (2 : Nat) = 1 + 1 from rfl,
        statusQueryLoop_step_reqError (fun _ => QueryOutcome.reqError m) vid m (0 + 1) 1 cache
          (by omega) rfl,
        show (1 : Nat) = 0 + 1 from rfl,
        statusQueryLoop_final_reqError_uncached (fun _ => QueryOutcome.reqError m) vid m
          (0 + 1 + 1) 0 cache (by omega) rfl h1]
    exact ⟨by rw [hred, hq], by rw [hred, hq]⟩

/-- Witness for C2's amended claim: a transport error preserves a
cached `"processing"` status, attaching the error. -/
theorem c2_gateway_failure_amended_witness :
    (getVideoStatus true (fun _ => QueryOutcome.reqError "conn reset")
        [("v1", { video_id := "v1", status := "processing" })] "v1").result =
      Except.ok { video_id := "v1", status := "processing",
                  error := some ("Error communicating with MCP: " ++ "conn reset") } := by
  have h := (c2_gateway_failure_amended "v1" "conn reset" 400
    [("v1", { video_id := "v1", status := "processing" })]
    { video_id := "v1", status := "processing" }).1 (by decide) (by decide) (by decide)
  exact h.1

/-! Claim C10 -/

theorem statusQueryLoop_queries_pos (att : Nat → QueryOutcome) (vid : String)
    (i fuel : Nat) (cache : Cache) :
    1 ≤ (statusQueryLoop att vid i (fuel + 1) cache).queries := by
  cases hatt : att i with
  | ok d => simp [statusQueryLoop, hatt]
  | httpError c =>
    simp only [statusQueryLoop, hatt]
    split
    · dsimp only
      omega
    · dsimp only
      omega
  | reqError m =>
    simp only [statusQueryLoop, hatt]
    split
    · dsimp only
      omega
    · dsimp only
      omega
  | exn m =>
    simp [statusQueryLoop, hatt]

/-- C10: when a status query fails for an uncached id, the synthetic
`"failed"` result is not written to the cache (the cache is returned
unchanged), so a later `get_video_status` call for the same id issues
a fresh remote query instead of returning the earlier failure. -/
theorem c10_uncached_failure_not_absorbing (vid m : String) (c : Nat)
    (cache : Cache) (att2 : Nat → QueryOutcome)
    (h1 : cacheFind cache vid = none) :
    (getVideoStatus true (fun _ => QueryOutcome.reqError m) cache vid).result =
      .ok { video_id := vid, status := "failed",
            error := some ("Error communicating with MCP: " ++ m) } ∧
    (getVideoStatus true (fun _ => QueryOutcome.reqError m) cache vid).cache = cache ∧
    (getVideoStatus true (fun _ => QueryOutcome.httpError c) cache vid).result =
      .ok { video_id := vid, status := "failed",
            error := some ("MCP returned error: " ++ toString c) } ∧
    (getVideoStatus true (fun _ => QueryOutcome.httpError c) cache vid).cache = cache ∧
    1 ≤ (getVideoStatus true att2 cache vid).queries := by
  have hredR := getVideoStatus_uncached (fun _ => QueryOutcome.reqError m) cache vid h1
  have hredH := getVideoStatus_uncached (fun _ => QueryOutcome.httpError c) cache vid h1
  have hred2 := getVideoStatus_uncached att2 cache vid h1
  have hqR : statusQueryLoop (fun _ => QueryOutcome.reqError m) vid 0 3 cache =
      ⟨.ok { video_id := vid, status := "failed",
              error := some ("Error communicating with MCP: " ++ m) },
        cache, 3⟩ := by
    rw [show (3 : Nat) = 2 + 1 from rfl,
      statusQueryLoop_step_reqError (fun _ => QueryOutcome.reqError m) vid m 0 2 cache
        (by omega) rfl,
      show (2 : Nat) = 1 + 1 from rfl,
      statusQueryLoop_step_reqError (fun _ => QueryOutcome.reqError m) vid m (0 + 1) 1 cache
        (by omega) rfl,
      show (1 : Nat) = 0 + 1 from rfl,
      statusQueryLoop_final_reqError_uncached (fun _ => QueryOutcome.reqError m) vid m
        (0 + 1 + 1) 0 cache (by omega) rfl h1]
  have hqH : statusQueryLoop (fun _ => QueryOutcome.httpError c) vid 0 3 cache =
      ⟨.ok { video_id := vid, status := "failed",
              error := some ("MCP returned error: " ++ toString c) },
        cache,
        (statusQueryLoop (fun _ => QueryOutcome.httpError c) vid 0 3 cache).queries⟩ := by
    by_cases h5 : 500 ≤ c
    · rw [show (3 : Nat) = 2 + 1 from rfl,
        statusQueryLoop_step_httpError (fun _ => QueryOutcome.httpError c) vid c 0 2 cache
          (by simp [h5]) rfl,
        show (2 : Nat) = 1 + 1 from rfl,
        statusQueryLoop_step_httpError (fun _ => QueryOutcome.httpError c) vid c (0 + 1) 1 cache
          (by simp [h5]) rfl,
        show (1 : Nat) = 0 + 1 from rfl,
        statusQueryLoop_final_httpError_uncached (fun _ => QueryOutcome.httpError c) vid c
          (0 + 1 + 1) 0 cache (by simp) rfl h1]
    · rw [show (3 : Nat) = 2 + 1 from rfl,
        statusQueryLoop_final_httpError_uncached (fun _ => QueryOutcome.httpError c) vid c
          0 2 cache (by simp [h5]) rfl h1]
  refine ⟨by rw [hredR, hqR], by rw [hredR, hqR], by rw [hredH, hqH], by rw [hredH, hqH], ?_⟩
  rw [hred2, show (3 : Nat) = 2 + 1 from rfl]
  exact statusQueryLoop_queries_pos att2 vid 0 2 cache

/-- Witness for C10: a transport failure on an uncached id leaves the
cache empty and the follow-up call queries the worker again. -/
theorem c10_uncached_failure_not_absorbing_witness :
    (getVideoStatus true (fun _ => QueryOutcome.reqError "down") [] "v2").result =
      .ok { video_id := "v2", status := "failed",
            error := some ("Error communicating with MCP: " ++ "down") } ∧
    (getVideoStatus true (fun _ => QueryOutcome.reqError "down") [] "v2").cache = [] ∧
    1 ≤ (getVideoStatus true
        (fun _ => QueryOutcome.ok { status := some "completed" }) [] "v2").queries := by
  have h := c10_uncached_failure_not_absorbing "v2" "down" 404 []
    (fun _ => QueryOutcome.ok { status := some "completed" }) (by decide)
  exact ⟨h.1, h.2.1, h.2.2.2.2⟩

/-! Claim C8 -/

theorem monitorLoop_checks_le (orc : MonOracle) (vid : String) :
    ∀ (fuel i : Nat) (cache : Cache),
      (monitorLoop orc vid i fuel cache).checks ≤ fuel := by
  intro fuel
  induction fuel with
  | zero => intro i cache; simp [monitorLoop]
  | succ n ih =>
    intro i cache
    rw [monitorLoop]
    dsimp only
    split
    · dsimp only
      omega
    · split
      · dsimp only
        omega
      · split
        · split
          · dsimp only
            exact Nat.succ_le_succ (ih (i + 1) _)
          · dsimp only
            omega
        · dsimp only
          exact Nat.succ_le_succ (ih (i + 1) _)

theorem dropLast_cons_nonterminal {x : String} {l : List String}
    (hx : terminalStatus x = false)
    (hl : ∀ s ∈ l.dropLast, terminalStatus s = false) :
    ∀ s ∈ (x :: l).dropLast, terminalStatus s = false := by
  cases l with
  | nil => intro s hs; simp at hs
  | cons y ys =>
    intro s hs
    have hdef : (x :: y :: ys).dropLast = x :: (y :: ys).dropLast := rfl
    rw [hdef] at hs
    rcases List.mem_cons.mp hs with h | h
    · subst h; exact hx
    · exact hl s h

theorem monitorLoop_observed_nonterminal (orc : MonOracle) (vid : String) :
    ∀ (fuel i : Nat) (cache : Cache),
      ∀ s ∈ (monitorLoop orc vid i fuel cache).observed.dropLast,
        terminalStatus s = false := by
  intro fuel
  induction fuel with
  | zero => intro i cache s hs; simp [monitorLoop] at hs
  | succ n ih =>
    intro i cache
    rw [monitorLoop]
    dsimp only
    split
    · intro s hs
      simp at hs
    · rename_i st hok
      split
      · intro s hs
        simp at hs
      · rename_i hterm
        have hx : terminalStatus st.status = false := by
          revert hterm
          cases terminalStatus st.status <;> simp
        split
        · split
          · dsimp only
            exact dropLast_cons_nonterminal hx (ih (i + 1) _)
          · intro s hs
            simp at hs
        · dsimp only
          exact dropLast_cons_nonterminal hx (ih (i + 1) _)

theorem statusQueryLoop_preserves_some (att : Nat → QueryOutcome) (vid : String) :
    ∀ (fuel i : Nat) (cache : Cache),
      (cacheFind cache vid).isSome = true →
      (cacheFind (statusQueryLoop att vid i fuel cache).cache vid).isSome = true := by
  intro fuel
  induction fuel with
  | zero => intro i cache h; exact h
  | succ n ih =>
    intro i cache h
    cases hatt : att i with
    | ok d => simp [statusQueryLoop, hatt, cacheFind_insert_self]
    | httpError c =>
      simp only [statusQueryLoop, hatt]
      split
      · dsimp only
        exact ih (i + 1) cache h
      · dsimp only
        obtain ⟨v, hv⟩ := Option.isSome_iff_exists.mp h
        simp [hv, cacheFind_insert_self]
    | reqError m =>
      simp only [statusQueryLoop, hatt]
      split
      · dsimp only
        exact ih (i + 1) cache h
      · dsimp only
        obtain ⟨v, hv⟩ := Option.isSome_iff_exists.mp h
        by_cases hvc : v.status ≠ "completed"
        · simp [hv, hvc, cacheFind_insert_self]
        · simp [hv, hvc, h]
    | exn m =>
      obtain ⟨v, hv⟩ := Option.isSome_iff_exists.mp h
      by_cases hvc : v.status ≠ "completed"
      · simp [statusQueryLoop, hatt, hv, hvc, cacheFind_insert_self]
      · simp [statusQueryLoop, hatt, hv, hvc, h]

theorem getVideoStatus_preserves_some (eok : Bool) (att : Nat → QueryOutcome)
    (cache : Cache) (vid : String)
    (h : (cacheFind cache vid).isSome = true) :
    (cacheFind (getVideoStatus eok att cache vid).cache vid).isSome = true := by
  obtain ⟨cs, hcs⟩ := Option.isSome_iff_exists.mp h
  simp only [getVideoStatus, hcs]
  split
  · simp [hcs]
  · simp only [getVideoStatusBody]
    cases eok with
    | true => simpa using statusQueryLoop_preserves_some att vid 3 0 cache h
    | false => simp [hcs]

theorem monitorLoop_preserves_some (orc : MonOracle) (vid : String) :
    ∀ (fuel i : Nat) (cache : Cache),
      (cacheFind cache vid).isSome = true →
      (cacheFind (monitorLoop orc vid i fuel cache).cache vid).isSome = true := by
  intro fuel
  induction fuel with
  | zero => intro i cache h; exact h
  | succ n ih =>
    intro i cache h
    have hr := getVideoStatus_preserves_some (orc i).1 (orc i).2 cache vid h
    rw [monitorLoop]
    dsimp only
    split
    · exact hr
    · split
      · exact hr
      · split
        · split
          · dsimp only
            exact ih (i + 1) _ (by simp [cacheFind_insert_self])
          · exact hr
        · dsimp only
          exact ih (i + 1) _ hr

theorem monitorVideoGeneration_fields (orc : MonOracle) (vid : String) (cache : Cache) :
    (monitorVideoGeneration orc vid cache).checks =
      (monitorLoop orc vid 0 60 cache).checks ∧
    (monitorVideoGeneration orc vid cache).observed =
      (monitorLoop orc vid 0 60 cache).observed ∧
    (monitorVideoGeneration orc vid cache).exn =
      (monitorLoop orc vid 0 60 cache).exn := by
  unfold monitorVideoGeneration
  dsimp only
  split
  · exact ⟨rfl, rfl, rfl⟩
  · split
    · split
      · exact ⟨rfl, rfl, rfl⟩
      · exact ⟨rfl, rfl, rfl⟩
    · exact ⟨rfl, rfl, rfl⟩

theorem monitorLoop_const_processing (d : StatusData)
    (hd : d.status = some "processing") (vid : String) :
    ∀ (fuel i : Nat) (cache : Cache) (v : VideoStatus),
      cacheFind cache vid = some v → v.status = "processing" →
      (monitorLoop (fun _ => (true, fun _ => QueryOutcome.ok d)) vid i fuel cache).exn =
        none ∧
      ∃ w, cacheFind
          (monitorLoop (fun _ => (true, fun _ => QueryOutcome.ok d)) vid i fuel cache).cache
          vid = some w ∧ w.status = "processing" := by
  intro fuel
  induction fuel with
  | zero =>
    intro i cache v h hp
    exact ⟨rfl, v, h, hp⟩
  | succ n ih =>
    intro i cache v h hp
    have hst : (mkStatusFromData vid d).status = "processing" := by
      simp [mkStatusFromData, hd]
    have hterm : terminalStatus v.status = false := by simp [terminalStatus, hp]
    have hterm2 : ¬ (terminalStatus (mkStatusFromData vid d).status = true) := by
      rw [hst]
      decide
    have hget : getVideoStatus true (fun _ => QueryOutcome.ok d) cache vid =
        ⟨.ok (mkStatusFromData vid d), cacheInsert cache vid (mkStatusFromData vid d), 1⟩ := by
      rw [getVideoStatus_nonterminal_cached (fun _ => QueryOutcome.ok d) cache vid v h hterm,
        show (3 : Nat) = 2 + 1 from rfl,
        statusQueryLoop_ok (fun _ => QueryOutcome.ok d) vid d 0 2 cache rfl]
    rw [monitorLoop]
    dsimp only
    rw [hget]
    dsimp only
    rw [if_neg hterm2]
    dsimp only [mkStatusFromData]
    rw [cacheFind_insert_self]
    dsimp only
    exact ih (i + 1) _ _ (cacheFind_insert_self _ _ _) (by simp [hd])

/-- C8: the polling loop of `_monitor_video_generation` performs at
most 60 status checks; it stops at the first terminal status (every
observed status except possibly the last is non-terminal); an
exception escaping a poll is absorbed by marking the cached job
`"failed"` with that error; and when every poll keeps answering
`"processing"`, the exhausted loop marks the job `"failed"` with the
timeout error — so the polling task always completes with the job in a
terminal state. -/
theorem c8_monitor_polling (orc : MonOracle) (vid : String) (cache : Cache) :
    (monitorVideoGeneration orc vid cache).checks ≤ 60 ∧
    (∀ s ∈ (monitorVideoGeneration orc vid cache).observed.dropLast,
      terminalStatus s = false) ∧
    (∀ v0, cacheFind cache vid = some v0 →
      ∀ e, (monitorVideoGeneration orc vid cache).exn = some e →
        ∃ w, cacheFind (monitorVideoGeneration orc vid cache).cache vid = some w ∧
          w.status = "failed" ∧ w.error = some e) ∧
    (∀ d : StatusData, d.status = some "processing" →
      orc = (fun _ => (true, fun _ => QueryOutcome.ok d)) →
      ∀ v0, cacheFind cache vid = some v0 → v0.status = "processing" →
        ∃ w, cacheFind (monitorVideoGeneration orc vid cache).cache vid = some w ∧
          w.status = "failed" ∧ w.error = some timeoutMsg) := by
  have hf := monitorVideoGeneration_fields orc vid cache
  refine ⟨?_, ?_, ?_, ?_⟩
  · rw [hf.1]
    exact monitorLoop_checks_le orc vid 60 0 cache
  · rw [hf.2.1]
    exact monitorLoop_observed_nonterminal orc vid 60 0 cache
  · intro v0 h0 e he
    have hle : (monitorLoop orc vid 0 60 cache).exn = some e := by
      rw [← hf.2.2]
      exact he
    have hpres := monitorLoop_preserves_some orc vid 60 0 cache (by simp [h0])
    obtain ⟨w, hw⟩ := Option.isSome_iff_exists.mp hpres
    have hmon : monitorVideoGeneration orc vid cache =
        { monitorLoop orc vid 0 60 cache with
          cache := markFailed (monitorLoop orc vid 0 60 cache).cache vid e } := by
      unfold monitorVideoGeneration
      dsimp only
      rw [hle]
    rw [hmon]
    dsimp only
    unfold markFailed
    rw [hw]
    exact ⟨_, cacheFind_insert_self _ _ _, rfl, rfl⟩
  · intro d hd horc v0 h0 hp0
    subst horc
    have hl := monitorLoop_const_processing d hd vid 60 0 cache v0 h0 hp0
    obtain ⟨w, hw, hwp⟩ := hl.2
    have hmon : monitorVideoGeneration (fun _ => (true, fun _ => QueryOutcome.ok d)) vid cache =
        { monitorLoop (fun _ => (true, fun _ => QueryOutcome.ok d)) vid 0 60 cache with
          cache := cacheInsert
            (monitorLoop (fun _ => (true, fun _ => QueryOutcome.ok d)) vid 0 60 cache).cache
            vid { w with status := "failed", error := some timeoutMsg } } := by
      unfold monitorVideoGeneration
      dsimp only
      rw [hl.1, hw]
      dsimp only
      rw [if_pos hwp]
    rw [hmon]
    dsimp only
    exact ⟨_, cacheFind_insert_self _ _ _, rfl, rfl⟩

/-- Witness for C8: a job that keeps reporting `"processing"` for all
60 checks ends marked `"failed"` with the timeout error. -/
theorem c8_monitor_polling_witness :
    (monitorVideoGeneration (fun _ => (true, fun _ => QueryOutcome.ok
        { status := some "processing" })) "v1"
        [("v1", { video_id := "v1", status := "processing" })]).checks ≤ 60 ∧
    ∃ w, cacheFind (monitorVideoGeneration (fun _ => (true, fun _ => QueryOutcome.ok
        { status := some "processing" })) "v1"
        [("v1", { video_id := "v1", status := "processing" })]).cache "v1" = some w ∧
      w.status = "failed" ∧ w.error = some timeoutMsg := by
  have h := c8_monitor_polling (fun _ => (true, fun _ => QueryOutcome.ok
    { status := some "processing" })) "v1"
    [("v1", { video_id := "v1", status := "processing" })]
  exact ⟨h.1, h.2.2.2 { status := some "processing" } rfl rfl
    { video_id := "v1", status := "processing" } (by decide) rfl⟩

end Mcpai
